import Mathlib

/-!
Shallow embedding of the sink / error-interception / exception-capture core of
the `loguru` delivery layer (files `_simple_sinks.py`, `_error_interceptor.py`,
`_recattrs.py`), together with theorems settling the specification claims.

Modelling conventions:
* Python exceptions are values of `PyExc`, carrying an exception class and an
  optional traceback handle.  `except Exception` catches every class except
  `CancelledError` (which, as in Python >= 3.8, derives from `BaseException`
  only); `except OSError` catches exactly the `osError` class.
* Fallible Python code is embedded as `Except PyExc _`.
* Writes to `sys.stderr` are modelled by an oracle (`StderrStream.failures`)
  deciding, for the k-th write call performed by one `print` invocation,
  whether it succeeds or raises a given exception class; successful writes are
  accumulated in an output trace.
* `sys.stderr` itself is `Option StderrStream`; `none` models a falsy stderr.
* Event loops are identified by `Nat`; `asyncio.Task.exception()` raising
  `CancelledError` on a cancelled task, and `await task` re-raising the task's
  exception (or `CancelledError` when cancelled), follow asyncio's documented
  behaviour.
* `pickle` is modelled by an explicit codec on an abstract value type `PyVal`:
  `unpicklable` values make `pickle.dumps` raise, `corrupt` byte payloads make
  `pickle.loads` raise, and round-tripping a picklable value restores it.
-/

set_option autoImplicit false

namespace Loguru

/-- Classes of Python exceptions relevant to the embedded code.  `custom n`
stands for an arbitrary user-defined `Exception` subclass. -/
inductive ExcClass where
  | osError
  | valueError
  | pickleError
  | unpicklingError
  | cancelledError
  | custom (n : Nat)
  deriving DecidableEq

/-- A Python exception value: its class plus an optional traceback handle
(the `__traceback__` attribute). -/
structure PyExc where
  cls : ExcClass
  tb : Option Nat
  deriving DecidableEq

/-- Whether a class is caught by `except Exception`.  In Python >= 3.8,
`asyncio.CancelledError` derives from `BaseException` and is therefore not
caught; every other class modelled here derives from `Exception`. -/
def ExcClass.isExceptionClass : ExcClass → Bool
  | .cancelledError => false
  | _ => true

/-- Whether `except Exception` catches this exception value. -/
def PyExc.isException (e : PyExc) : Bool :=
  e.cls.isExceptionClass

/-- The `CancelledError` raised by asyncio itself (no traceback attached at
the point of interest). -/
def cancelledExc : PyExc :=
  ⟨ExcClass.cancelledError, none⟩

/-- A record as seen by the interceptor: rendering it with `str` either
produces a string or raises. -/
inductive PyRecord where
  | printable (s : String)
  | unprintable (c : ExcClass)
  deriving DecidableEq

/-- Python `str(record)` where `record` may be `None` (rendering as "None"). -/
def strRecord : Option PyRecord → Except PyExc String
  | none => .ok "None"
  | some (.printable s) => .ok s
  | some (.unprintable c) => .error ⟨c, none⟩

/-- The `(type, value, traceback)` triple manipulated by
`ErrorInterceptor.print`; also the shape of `sys.exc_info()`. -/
structure ExcTriple where
  ty : Option ExcClass
  val : Option PyExc
  tb : Option Nat
  deriving DecidableEq

/-- Printable tag of an exception class (used when rendering tracebacks). -/
def ExcClass.tag : ExcClass → String
  | .osError => "OSError"
  | .valueError => "ValueError"
  | .pickleError => "PicklingError"
  | .unpicklingError => "UnpicklingError"
  | .cancelledError => "CancelledError"
  | .custom n => "CustomException" ++ toString n

/-- Rendering of `Option` components inside a traceback dump. -/
def optTag : Option String → String
  | none => "None"
  | some s => s

/-- The text `traceback.print_exception(type_, value, traceback_, None, stderr)`
sends to `stderr`, as a function of the triple. -/
def renderTriple (t : ExcTriple) : String :=
  "TracebackDump(" ++ optTag (t.ty.map ExcClass.tag) ++ ","
    ++ optTag (t.val.map (fun e => e.cls.tag)) ++ ","
    ++ optTag (t.tb.map toString) ++ ")"

/-- Behaviour of the `sys.stderr` object: for the k-th write call of one
`print` invocation, `failures.get? k = some (some c)` means that write raises
an exception of class `c`; otherwise the write succeeds. -/
structure StderrStream where
  failures : List (Option ExcClass)
  deriving DecidableEq

/-- Result of the k-th write call on this stderr: `none` = success,
`some c` = raises class `c`. -/
def StderrStream.writeBehavior (st : StderrStream) (k : Nat) : Option ExcClass :=
  match st.failures.get? k with
  | none => none
  | some r => r

/-- A stderr whose writes always succeed. -/
def stderrOk : StderrStream :=
  ⟨[]⟩

/-- Embeds `ErrorInterceptor` (`_error_interceptor.py`): a static catch/raise
policy and the numeric handler id used in the diagnostic header. -/
structure ErrorInterceptor where
  should_catch : Bool
  handler_id : Nat
  deriving DecidableEq

/-- Whether `ErrorInterceptor.print` returned normally or let an exception
escape to its caller. -/
inductive PrintResult where
  | returned
  | raised (e : PyExc)
  deriving DecidableEq

/-- Observable outcome of one `ErrorInterceptor.print` call: its control-flow
result and the lines successfully written to stderr, in order. -/
structure PrintOutcome where
  result : PrintResult
  written : List String
  deriving DecidableEq

/-- The diagnostic header line written first by `ErrorInterceptor.print`. -/
def headerLine (i : ErrorInterceptor) : String :=
  "--- Logging error in Loguru Handler #" ++ toString i.handler_id ++ " ---"

/-- The diagnostic footer line written last by `ErrorInterceptor.print`. -/
def footerLine : String :=
  "--- End of logging error ---"

/-- The inner `try: record_repr = str(record) except Exception:` block of
`print`: a failing `str` is replaced by the placeholder when the failure is an
`Exception`; a `BaseException` from `str` still propagates. -/
def recordReprOrPlaceholder (record : Option PyRecord) : Except PyExc String :=
  match strRecord record with
  | .ok s => .ok s
  | .error e =>
    if e.isException then .ok "/!\\ Unprintable record /!\\" else .error e

/-- Embeds `ErrorInterceptor.print` (`_error_interceptor.py`, lines 17-40).
`excInfo` is the ambient `sys.exc_info()` triple of the calling context,
`stderr` is `sys.stderr` (`none` when falsy).  The four stderr write calls of
the body (header, record line, traceback dump, footer) are performed in order;
the surrounding `try` block catches only `OSError` (`except OSError: pass`),
so a write failing with any other class escapes from `print`. -/
def ErrorInterceptor.print (i : ErrorInterceptor) (record : Option PyRecord)
    (exception : Option PyExc) (excInfo : ExcTriple)
    (stderr : Option StderrStream) : PrintOutcome :=
  match stderr with
  | none => ⟨.returned, []⟩
  | some st =>
    let triple : ExcTriple :=
      match exception with
      | none => excInfo
      | some e => ⟨some e.cls, some e, e.tb⟩
    match st.writeBehavior 0 with
    | some c =>
      if c = ExcClass.osError then ⟨.returned, []⟩ else ⟨.raised ⟨c, none⟩, []⟩
    | none =>
      match recordReprOrPlaceholder record with
      | .error e => ⟨.raised e, [headerLine i]⟩
      | .ok record_repr =>
        match st.writeBehavior 1 with
        | some c =>
          if c = ExcClass.osError then ⟨.returned, [headerLine i]⟩
          else ⟨.raised ⟨c, none⟩, [headerLine i]⟩
        | none =>
          match st.writeBehavior 2 with
          | some c =>
            if c = ExcClass.osError then
              ⟨.returned, [headerLine i, "Record was: " ++ record_repr]⟩
            else ⟨.raised ⟨c, none⟩, [headerLine i, "Record was: " ++ record_repr]⟩
          | none =>
            match st.writeBehavior 3 with
            | some c =>
              if c = ExcClass.osError then
                ⟨.returned,
                  [headerLine i, "Record was: " ++ record_repr, renderTriple triple]⟩
              else
                ⟨.raised ⟨c, none⟩,
                  [headerLine i, "Record was: " ++ record_repr, renderTriple triple]⟩
            | none =>
              ⟨.returned,
                [headerLine i, "Record was: " ++ record_repr, renderTriple triple,
                  footerLine]⟩

/-- Final state of a scheduled asyncio task.  A coroutine that raised
`CancelledError` (in particular after `Task.cancel()`) ends in the
`cancelled` state, so a `failed` payload is never of class
`cancelledError`. -/
inductive TaskOutcome where
  | success
  | failed (e : PyExc)
  | cancelled
  deriving DecidableEq

/-- `asyncio.Task.exception()`: returns the exception of a failed task, `None`
for a successful one, and raises `CancelledError` when the task was
cancelled. -/
def taskException : TaskOutcome → Except PyExc (Option PyExc)
  | .cancelled => .error cancelledExc
  | .success => .ok none
  | .failed e => .ok (some e)

/-- `asyncio.Task.cancelled()`. -/
def taskCancelled : TaskOutcome → Bool
  | .cancelled => true
  | _ => false

/-- What the completion observer attached in `AsyncSink.write` does once a
task finishes: return without effect, let an exception escape the callback
(asyncio then routes it to the event loop's unhandled-exception handler), or
report a record/exception pair through `ErrorInterceptor.print`. -/
inductive ObserverOutcome where
  | nothing
  | raised (e : PyExc)
  | reported (record : Option PyRecord) (e : PyExc)
  deriving DecidableEq

/-- Embeds the `check_exception` done-callback of `AsyncSink.write`
(`_simple_sinks.py`, lines 88-96), keeping the source's evaluation order:
`exc = future.exception()` runs first (and may itself raise), and only then is
`if future.cancelled() or exc is None: return` evaluated, followed by the
catch-policy dispatch. -/
def check_exception (interceptor : ErrorInterceptor) (record : Option PyRecord)
    (t : TaskOutcome) : ObserverOutcome :=
  match taskException t with
  | .error e => .raised e
  | .ok none => .nothing
  | .ok (some e) =>
    if taskCancelled t then .nothing
    else if !interceptor.should_catch then .raised e
    else .reported record e

/-- A tracked task as seen by `tasks_to_complete`: the event loop it belongs
to (`Task.get_loop()`) and its eventual outcome. -/
structure TaskEntry where
  loop : Nat
  outcome : TaskOutcome
  deriving DecidableEq

/-- `await task` on a finished task: returns for a successful task, re-raises
the task's exception for a failed one, raises `CancelledError` for a
cancelled one. -/
def awaitTask (t : TaskEntry) : Except PyExc Unit :=
  match t.outcome with
  | .success => .ok ()
  | .failed e => .error e
  | .cancelled => .error cancelledExc

/-- Embeds `AsyncSink._complete_task` (`_simple_sinks.py`, lines 111-118):
the wrapper awaitable returned for each tracked task.  `runningLoop` is the
loop currently awaiting the wrapper (`get_running_loop()`).  The body's
`except Exception: pass` swallows exactly the `Exception`-class failures. -/
def AsyncSink.complete_task (t : TaskEntry) (runningLoop : Nat) :
    Except PyExc Unit :=
  if t.loop ≠ runningLoop then .ok ()
  else
    match awaitTask t with
    | .ok _ => .ok ()
    | .error e => if e.isException then .ok () else .error e

/-- Embeds the state of `AsyncSink` (`_simple_sinks.py`, lines 67-77): the
delivery function reference, the optionally bound event loop, the error
interceptor, and the tracked task set (ids of scheduled tasks). -/
structure AsyncSink where
  function : Nat
  loop : Option Nat
  error_interceptor : ErrorInterceptor
  tasks : List Nat
  deriving DecidableEq

/-- A unit of work scheduled by `AsyncSink.write`: which loop it was created
on, the delivery function invoked, and the message passed to it. -/
structure ScheduledUnit where
  loop : Nat
  function : Nat
  message : Nat
  deriving DecidableEq

/-- Observable effect of one `AsyncSink.write` call: the updated sink state
and the units of work it scheduled. -/
structure WriteEffect where
  sink : AsyncSink
  scheduled : List ScheduledUnit
  deriving DecidableEq

/-- `self._loop or get_running_loop()` guarded by `except RuntimeError`:
the bound loop when present (loop objects are truthy), otherwise the caller's
running loop; `none` when neither exists (`get_running_loop` raised and the
`except RuntimeError: return` path is taken). -/
def resolveLoop : Option Nat → Option Nat → Option Nat
  | some l, _ => some l
  | none, running => running

/-- Embeds `AsyncSink.write` (`_simple_sinks.py`, lines 79-97).  `runningLoop`
is the caller's currently running event loop, if any; `freshTaskId` is the
identity of the task `loop.create_task` would create.  When no loop can be
resolved the call returns with no effect (the source's early `return`);
otherwise the coroutine is scheduled and the task is added to the tracked
set. -/
def AsyncSink.write (s : AsyncSink) (message : Nat) (runningLoop : Option Nat)
    (freshTaskId : Nat) : WriteEffect :=
  match resolveLoop s.loop runningLoop with
  | none => ⟨s, []⟩
  | some l =>
    ⟨{ s with tasks := s.tasks ++ [freshTaskId] }, [⟨l, s.function, message⟩]⟩

/-- The `__dict__` copy produced by `AsyncSink.__getstate__`: same fields as
the sink, except that the `_tasks` entry may be `None`. -/
structure AsyncSinkState where
  function : Nat
  loop : Option Nat
  error_interceptor : ErrorInterceptor
  tasks : Option (List Nat)
  deriving DecidableEq

/-- Embeds `AsyncSink.__getstate__` (`_simple_sinks.py`, lines 120-123):
a copy of the state with `_tasks` replaced by `None`. -/
def AsyncSink.getstate (s : AsyncSink) : AsyncSinkState :=
  ⟨s.function, s.loop, s.error_interceptor, none⟩

/-- Embeds `AsyncSink.__setstate__` (`_simple_sinks.py`, lines 125-127):
`__dict__.update(state)` followed by `self._tasks = weakref.WeakSet()`, i.e.
every field is taken from the transported state but the tracked set is a
fresh empty one. -/
def AsyncSink.setstate (st : AsyncSinkState) : AsyncSink :=
  ⟨st.function, st.loop, st.error_interceptor, []⟩

/-- An underlying stream object, described by the capabilities probed in
`StreamSink.__init__`: a callable `flush`, a callable `stop`, and a coroutine
function `complete`. -/
structure PyStream where
  hasFlush : Bool
  hasStop : Bool
  hasAsyncComplete : Bool
  deriving DecidableEq

/-- Embeds `StreamSink` (`_simple_sinks.py`, lines 15-34): the stream plus
the three capability flags computed at construction time. -/
structure StreamSink where
  stream : PyStream
  flushable : Bool
  stoppable : Bool
  completable : Bool
  deriving DecidableEq

/-- Embeds `StreamSink.__init__`: probes the stream's capabilities. -/
def StreamSink.init (stream : PyStream) : StreamSink :=
  ⟨stream, stream.hasFlush, stream.hasStop, stream.hasAsyncComplete⟩

/-- Calls observable on a stream object, in order. -/
inductive StreamEvent where
  | writeEv (message : Nat)
  | flushEv
  deriving DecidableEq

/-- Embeds `StreamSink.write` (`_simple_sinks.py`, lines 22-25) as a trace
transformer: `self._stream.write(message)` then, if flushable,
`self._stream.flush()`. -/
def StreamSink.write (sk : StreamSink) (message : Nat)
    (trace : List StreamEvent) : List StreamEvent :=
  let afterWrite := trace ++ [StreamEvent.writeEv message]
  if sk.flushable then afterWrite ++ [StreamEvent.flushEv] else afterWrite

/-- A sequence of `StreamSink.write` calls, one per message, in order. -/
def StreamSink.writeAll (sk : StreamSink) (messages : List Nat)
    (trace : List StreamEvent) : List StreamEvent :=
  match messages with
  | [] => trace
  | m :: rest => StreamSink.writeAll sk rest (StreamSink.write sk m trace)

/-- Awaitable handles returned by `tasks_to_complete`. -/
inductive AwaitableHandle where
  | streamComplete (stream : PyStream)
  | taskWrapper (t : TaskEntry)
  deriving DecidableEq

/-- Embeds `StreamSink.tasks_to_complete` (`_simple_sinks.py`, lines 31-34):
empty unless the stream exposes a coroutine `complete` method, in which case
the single awaitable `self._stream.complete()` is returned. -/
def StreamSink.tasks_to_complete (sk : StreamSink) : List AwaitableHandle :=
  if !sk.completable then [] else [AwaitableHandle.streamComplete sk.stream]

/-- Embeds `StandardSink` (`_simple_sinks.py`, lines 37-64): owns a handler
of the standard logging bridge. -/
structure StandardSink where
  handler : Nat
  deriving DecidableEq

/-- Embeds `StandardSink.tasks_to_complete` (lines 63-64): always empty. -/
def StandardSink.tasks_to_complete (_ : StandardSink) : List AwaitableHandle :=
  []

/-- Embeds `CallableSink` (`_simple_sinks.py`, lines 130-141): owns a plain
user function. -/
structure CallableSink where
  function : Nat
  deriving DecidableEq

/-- Embeds `CallableSink.tasks_to_complete` (lines 140-141): always empty. -/
def CallableSink.tasks_to_complete (_ : CallableSink) : List AwaitableHandle :=
  []

/-- Abstract Python values held by an exception record: `picklable n` values
survive `pickle.dumps`, `unpicklable n` values make it raise. -/
inductive PyVal where
  | picklable (n : Nat)
  | unpicklable (n : Nat)
  deriving DecidableEq

/-- Byte payloads produced or consumed by the pickle codec: `payload v` is the
serialization of the (optional) picklable value `v`, `corrupt n` is a payload
on which `pickle.loads` raises. -/
inductive PyBytes where
  | payload (v : Option Nat)
  | corrupt (n : Nat)
  deriving DecidableEq

/-- `pickle.dumps` on the optional value field: `None` and picklable values
serialize, unpicklable ones raise (not necessarily a `PickleError`, hence the
source's generic `except Exception`). -/
def pickle_dumps : Option PyVal → Except PyExc PyBytes
  | none => .ok (PyBytes.payload none)
  | some (.picklable n) => .ok (PyBytes.payload (some n))
  | some (.unpicklable _) => .error ⟨ExcClass.pickleError, none⟩

/-- `pickle.loads`: inverse of `pickle_dumps` on well-formed payloads, raises
on corrupt ones. -/
def pickle_loads : PyBytes → Except PyExc (Option PyVal)
  | .payload none => .ok none
  | .payload (some n) => .ok (some (PyVal.picklable n))
  | .corrupt _ => .error ⟨ExcClass.unpicklingError, none⟩

/-- Embeds `RecordException` (`_recattrs.py`, lines 65-68): the
`(type, value, traceback)` triple, with the type as an abstract handle. -/
structure RecordException where
  type : Option Nat
  value : Option PyVal
  traceback : Option Nat
  deriving DecidableEq

/-- The two shapes `RecordException.__reduce__` can return: the class applied
to plain arguments, or `_from_pickled_value` applied to a pre-pickled
payload. -/
inductive ReduceResult where
  | direct (type : Option Nat) (value : Option PyVal) (traceback : Option Nat)
  | fromPickled (type : Option Nat) (pickled : PyBytes) (traceback : Option Nat)
  deriving DecidableEq

/-- Embeds `RecordException.__reduce__` (`_recattrs.py`, lines 75-88):
attempt to pickle the value; on any failure reduce to
`(RecordException, (type, None, None))`, otherwise to
`(_from_pickled_value, (type, pickled_value, None))`. -/
def RecordException.reduce (r : RecordException) : ReduceResult :=
  match pickle_dumps r.value with
  | .error _ => ReduceResult.direct r.type none none
  | .ok pickled_value => ReduceResult.fromPickled r.type pickled_value none

/-- Embeds `RecordException._from_pickled_value` (`_recattrs.py`, lines
90-104): unpickle the transported value, falling back to `None` when
`pickle.loads` raises. -/
def RecordException.from_pickled_value (type_ : Option Nat)
    (pickled_value : PyBytes) (traceback_ : Option Nat) : RecordException :=
  match pickle_loads pickled_value with
  | .error _ => ⟨type_, none, traceback_⟩
  | .ok value => ⟨type_, value, traceback_⟩

/-- Reconstitution on the receiving side of a process boundary: apply the
callable named by `__reduce__` to its arguments. -/
def reconstitute : ReduceResult → RecordException
  | .direct t v tb => ⟨t, v, tb⟩
  | .fromPickled t pv tb => RecordException.from_pickled_value t pv tb

/-- Serialize-then-reconstitute round trip of a `RecordException`. -/
def RecordException.roundtrip (r : RecordException) : RecordException :=
  reconstitute r.reduce

/-- Stream-event trace demanded by the spec's wording: "the destination's
write is invoked once per message, in call order, followed by a flush, before
the next write begins", with no flushes for a flush-incapable destination.
Stated independently of the source so the source's trace can be compared to
it. -/
def specStreamPattern (flushable : Bool) (messages : List Nat) :
    List StreamEvent :=
  match messages with
  | [] => []
  | m :: rest =>
    (StreamEvent.writeEv m :: (if flushable then [StreamEvent.flushEv] else []))
      ++ specStreamPattern flushable rest

/-- Helper: a run of `write` calls appends the per-message pattern to the
initial trace. -/
theorem StreamSink.writeAll_eq (sk : StreamSink) (messages : List Nat)
    (trace : List StreamEvent) :
    StreamSink.writeAll sk messages trace
      = trace ++ specStreamPattern sk.flushable messages := by
  induction messages generalizing trace with
  | nil => simp [StreamSink.writeAll, specStreamPattern]
  | cons m rest ih =>
    rw [StreamSink.writeAll, ih, specStreamPattern, StreamSink.write]
    cases sk.flushable <;> simp

/-- Helper: the flush-free pattern contains no flush event. -/
theorem flushEv_not_mem_specStreamPattern (messages : List Nat) :
    StreamEvent.flushEv ∉ specStreamPattern false messages := by
  induction messages with
  | nil => simp [specStreamPattern]
  | cons m rest ih => simp [specStreamPattern, ih]

/-- C1: the claim says the completion observer attached in `AsyncSink.write`
does nothing when the finished task was cancelled.  On the code this fails:
`exc = future.exception()` is evaluated before `future.cancelled()` is
tested, and `Task.exception()` raises `CancelledError` for a cancelled task,
so for every interceptor and record the observer lets `CancelledError` escape
into the event loop's unhandled-exception path instead of doing nothing. -/
theorem claim_C1_cancelled_observer_raises (interceptor : ErrorInterceptor)
    (record : Option PyRecord) :
    check_exception interceptor record TaskOutcome.cancelled
      = ObserverOutcome.raised cancelledExc := rfl

/-- C2: the claim says `ErrorInterceptor.print` returns normally even when
any write to stderr raises.  On the code this fails: the guard is
`except OSError`, so a stderr whose write raises `ValueError` makes `print`
itself raise, for every interceptor, record, exception argument and ambient
exception info. -/
theorem claim_C2_non_oserror_write_propagates (i : ErrorInterceptor)
    (record : Option PyRecord) (exception : Option PyExc)
    (excInfo : ExcTriple) :
    ErrorInterceptor.print i record exception excInfo
        (some ⟨[some ExcClass.valueError]⟩)
      = ⟨PrintResult.raised ⟨ExcClass.valueError, none⟩, []⟩ := by
  cases exception <;> rfl

/-- C3: round-tripping a `RecordException` across a process boundary always
drops the traceback and preserves the type; a serializable value is restored
equal to the original, and an unserializable one degrades the record to
`(type, None, None)`. -/
theorem claim_C3_roundtrip (r : RecordException) :
    (r.roundtrip.traceback = none ∧ r.roundtrip.type = r.type) ∧
    (∀ pv, pickle_dumps r.value = Except.ok pv →
      r.roundtrip.value = r.value) ∧
    (∀ e, pickle_dumps r.value = Except.error e →
      r.roundtrip = ⟨r.type, none, none⟩) := by
  obtain ⟨t, v, tb⟩ := r
  cases v with
  | none =>
    simp [RecordException.roundtrip, RecordException.reduce, pickle_dumps,
      reconstitute, RecordException.from_pickled_value, pickle_loads]
  | some w =>
    cases w with
    | picklable n =>
      simp [RecordException.roundtrip, RecordException.reduce, pickle_dumps,
        reconstitute, RecordException.from_pickled_value, pickle_loads]
    | unpicklable n =>
      simp [RecordException.roundtrip, RecordException.reduce, pickle_dumps,
        reconstitute, RecordException.from_pickled_value, pickle_loads]

/-- C3 witness: a concrete record with a picklable value round-trips with its
value restored. -/
theorem claim_C3_roundtrip_witness :
    (RecordException.roundtrip ⟨some 3, some (PyVal.picklable 5), some 7⟩).value
      = some (PyVal.picklable 5) :=
  (claim_C3_roundtrip ⟨some 3, some (PyVal.picklable 5), some 7⟩).2.1
    (PyBytes.payload (some 5)) rfl

/-- C4 counterexample: the claim says awaiting the wrapper never propagates
an error to the drainer, but for a same-loop entry that was cancelled (the
normal state of tracked tasks after `stop()`), `await task` raises
`CancelledError`, which `except Exception` does not catch, so the wrapper
re-raises it to the drainer. -/
theorem claim_C4_counterexample :
    AsyncSink.complete_task ⟨0, TaskOutcome.cancelled⟩ 0
      = Except.error cancelledExc := rfl

/-- C4 (amended): the wrapper returned by `tasks_to_complete` resolves as a
no-op when the entry's loop differs from the loop awaiting it, and otherwise
awaits the entry and swallows any `Exception`-class failure it raises; but
awaiting a same-loop entry that was cancelled re-raises `CancelledError`
(a `BaseException` not caught by `except Exception`) to the drainer. -/
theorem claim_C4_amended (t : TaskEntry) (runningLoop : Nat) :
    (t.loop ≠ runningLoop →
      AsyncSink.complete_task t runningLoop = Except.ok ()) ∧
    (∀ e, t.outcome = TaskOutcome.failed e → e.isException = true →
      AsyncSink.complete_task t runningLoop = Except.ok ()) ∧
    (t.loop = runningLoop → t.outcome = TaskOutcome.cancelled →
      AsyncSink.complete_task t runningLoop = Except.error cancelledExc) := by
  refine ⟨?_, ?_, ?_⟩
  · intro h
    simp [AsyncSink.complete_task, h]
  · intro e he hex
    by_cases hl : t.loop = runningLoop
    · simp [AsyncSink.complete_task, hl, awaitTask, he, hex]
    · simp [AsyncSink.complete_task, hl]
  · intro hl hc
    simp [AsyncSink.complete_task, hl, awaitTask, hc, cancelledExc,
      PyExc.isException, ExcClass.isExceptionClass]

/-- C4 witness: a same-loop task that failed with a `ValueError` is awaited
without propagating anything. -/
theorem claim_C4_amended_witness :
    AsyncSink.complete_task ⟨0, TaskOutcome.failed ⟨ExcClass.valueError, none⟩⟩ 0
      = Except.ok () :=
  (claim_C4_amended
      ⟨0, TaskOutcome.failed ⟨ExcClass.valueError, none⟩⟩ 0).2.1
    ⟨ExcClass.valueError, none⟩ rfl rfl

/-- C5 counterexample: a Stream-variant sink whose destination exposes a
coroutine `complete` method returns a non-empty sequence from
`tasks_to_complete`, refuting "always empty for every synchronous variant and
every state". -/
theorem claim_C5_counterexample :
    StreamSink.tasks_to_complete (StreamSink.init ⟨false, false, true⟩) ≠ [] := by
  decide

/-- C5 (amended): the Standard-bridge and Callable variants always return an
empty sequence from `tasks_to_complete`; the Stream variant returns an empty
sequence exactly when its destination lacks a coroutine `complete` method,
and otherwise returns the single awaitable obtained from it. -/
theorem claim_C5_amended (stream : PyStream) (hs : StandardSink)
    (cs : CallableSink) :
    StandardSink.tasks_to_complete hs = [] ∧
    CallableSink.tasks_to_complete cs = [] ∧
    StreamSink.tasks_to_complete (StreamSink.init stream)
      = (if stream.hasAsyncComplete then
          [AwaitableHandle.streamComplete stream] else []) := by
  refine ⟨rfl, rfl, ?_⟩
  cases stream with
  | mk f s c => cases c <;> rfl

/-- C6: a `write` on an Asynchronous sink with no bound loop, made while no
event loop is running, schedules nothing, raises nothing (the source's
`RuntimeError` from `get_running_loop` is caught), and leaves the sink,
including its tracked task set, unchanged. -/
theorem claim_C6_write_no_loop (s : AsyncSink) (message freshTaskId : Nat)
    (h : s.loop = none) :
    AsyncSink.write s message none freshTaskId = ⟨s, []⟩ := by
  simp [AsyncSink.write, resolveLoop, h]

/-- C6 witness: a concrete sink with no bound loop drops the message. -/
theorem claim_C6_write_no_loop_witness :
    AsyncSink.write ⟨7, none, ⟨true, 1⟩, [5]⟩ 2 none 9
      = ⟨⟨7, none, ⟨true, 1⟩, [5]⟩, []⟩ :=
  claim_C6_write_no_loop ⟨7, none, ⟨true, 1⟩, [5]⟩ 2 9 rfl

/-- C7: reconstitution of an `ExceptionRecord` whose transported value
payload fails to deserialize yields `(type, None, traceback)` instead of
propagating the deserialization error. -/
theorem claim_C7_from_pickled_failure (type_ : Option Nat) (pickled : PyBytes)
    (traceback_ : Option Nat) (e : PyExc)
    (h : pickle_loads pickled = Except.error e) :
    RecordException.from_pickled_value type_ pickled traceback_
      = ⟨type_, none, traceback_⟩ := by
  simp [RecordException.from_pickled_value, h]

/-- C7 witness: a corrupt payload degrades to a value-free record. -/
theorem claim_C7_from_pickled_failure_witness :
    RecordException.from_pickled_value (some 1) (PyBytes.corrupt 0) (some 2)
      = ⟨some 1, none, some 2⟩ :=
  claim_C7_from_pickled_failure (some 1) (PyBytes.corrupt 0) (some 2)
    ⟨ExcClass.unpicklingError, none⟩ rfl

/-- C8: a run of `write` calls on a Stream-variant sink produces exactly one
destination write per message, in call order, each followed by a flush before
the next write when the destination is flush-capable; and no flush call ever
occurs when it is not. -/
theorem claim_C8_stream_write_order (stream : PyStream) (messages : List Nat) :
    StreamSink.writeAll (StreamSink.init stream) messages []
      = specStreamPattern stream.hasFlush messages ∧
    (stream.hasFlush = false →
      StreamEvent.flushEv ∉
        StreamSink.writeAll (StreamSink.init stream) messages []) := by
  constructor
  · rw [StreamSink.writeAll_eq]
    simp [StreamSink.init]
  · intro h
    rw [StreamSink.writeAll_eq]
    simp [StreamSink.init, h]
    exact flushEv_not_mem_specStreamPattern messages

/-- C8 witness: two messages to a flush-incapable destination produce no
flush call. -/
theorem claim_C8_stream_write_order_witness :
    StreamEvent.flushEv ∉
      StreamSink.writeAll (StreamSink.init ⟨false, false, false⟩) [1, 2] [] :=
  (claim_C8_stream_write_order ⟨false, false, false⟩ [1, 2]).2 rfl

/-- C9: transporting an Asynchronous sink's state across a process boundary
and reconstituting it resets the tracked task set to empty and carries the
delivery function, bound loop and error interceptor over unchanged. -/
theorem claim_C9_pickle_resets_tasks (s : AsyncSink) :
    AsyncSink.setstate (AsyncSink.getstate s)
      = ⟨s.function, s.loop, s.error_interceptor, []⟩ := rfl

/-- C10: when `ErrorInterceptor.print` is called with `exception = None`, the
traceback section of the diagnostic it emits is rendered from the calling
context's live `sys.exc_info()` triple, and a full diagnostic block is
produced (not nothing). -/
theorem claim_C10_print_uses_live_excinfo (i : ErrorInterceptor)
    (record : Option PyRecord) (excInfo : ExcTriple) (s : String)
    (h : recordReprOrPlaceholder record = Except.ok s) :
    ErrorInterceptor.print i record none excInfo (some stderrOk)
      = ⟨PrintResult.returned,
          [headerLine i, "Record was: " ++ s, renderTriple excInfo,
            footerLine]⟩ := by
  simp [ErrorInterceptor.print, stderrOk, StderrStream.writeBehavior, h]

/-- C10 witness: a concrete call with a printable record and a live custom
exception triple emits the triple's rendering. -/
theorem claim_C10_print_uses_live_excinfo_witness :
    ErrorInterceptor.print ⟨true, 2⟩ (some (PyRecord.printable "rec")) none
        ⟨some (ExcClass.custom 4), some ⟨ExcClass.custom 4, some 3⟩, some 3⟩
        (some stderrOk)
      = ⟨PrintResult.returned,
          [headerLine ⟨true, 2⟩, "Record was: " ++ "rec",
            renderTriple
              ⟨some (ExcClass.custom 4), some ⟨ExcClass.custom 4, some 3⟩,
                some 3⟩,
            footerLine]⟩ :=
  claim_C10_print_uses_live_excinfo ⟨true, 2⟩ (some (PyRecord.printable "rec"))
    ⟨some (ExcClass.custom 4), some ⟨ExcClass.custom 4, some 3⟩, some 3⟩
    "rec" rfl

end Loguru
